import Mathlib

/-!
Verification of the gear generator core: a shallow embedding of
src/gear_generator.py and src/bevel_gear_generator.py.

Machine floating point numbers are modelled as real numbers.  The involute
profile generator (gear.generate, from the lib/gear-profile-generator
submodule) is not among the two source files; it is modelled from the
specification, see gear_generate below.
-/

namespace GearGen

/-- Degrees to radians, as computed by math.radians and gear.deg2rad. -/
noncomputable def deg2rad (d : ℝ) : ℝ := d * Real.pi / 180

/-- Modelled from the spec: the function gear.generate lives in the
lib/gear-profile-generator submodule, which is not under src/; only its call
sites are.  Per the specification (section 4.1) it is a pure function of its
five arguments returning the closed ring of boundary points of all teeth
together with the pitch radius, where the pitch radius satisfies
pitchRadius = module * teethCount / 2 exactly; since toothWidth = pi * module,
that is pitchRadius = toothWidth * teethCount / (2 * pi).  The ring is a
deterministic sampling of the tooth boundary whose size is determined by the
tooth count and the sample count.  No claim depends on the individual involute
flank coordinates, so the ring is modelled as a uniform deterministic sampling
of the boundary circle at the pitch radius. -/
noncomputable def gear_generate (teeth_count : ℕ) (tooth_width pressure_angle backlash : ℝ)
    (frame_count : ℕ) : List (ℝ × ℝ) × ℝ :=
  let pitch_radius : ℝ := tooth_width * (teeth_count : ℝ) / (2 * Real.pi)
  ((List.range (teeth_count * frame_count)).map (fun k =>
      let θ : ℝ := 2 * Real.pi * (k : ℝ) / ((teeth_count : ℝ) * (frame_count : ℝ))
      (pitch_radius * Real.cos θ, pitch_radius * Real.sin θ)),
   pitch_radius)

/-- The state stored by InvoluteGear.__init__ in src/gear_generator.py. -/
structure InvoluteGear where
  module : ℝ
  teeth_number : ℕ
  pressure_angle : ℝ
  clearance : ℝ
  backlash : ℝ
  profile_shift : ℝ
  tooth_width : ℝ
  gear_poly : List (ℝ × ℝ)
  pitch_radius : ℝ

/-- InvoluteGear.__init__ (src/gear_generator.py lines 14-50): stores the
parameters, sets tooth_width = pi * module, and obtains the profile ring and
the pitch radius from gear.generate with frame_count = 32. -/
noncomputable def mkInvoluteGear (module : ℝ) (teeth_number : ℕ)
    (pressure_angle clearance backlash profile_shift : ℝ) : InvoluteGear :=
  let tooth_width : ℝ := Real.pi * module
  let g := gear_generate teeth_number tooth_width (deg2rad pressure_angle) backlash 32
  { module := module
    teeth_number := teeth_number
    pressure_angle := pressure_angle
    clearance := clearance
    backlash := backlash
    profile_shift := profile_shift
    tooth_width := tooth_width
    gear_poly := g.1
    pitch_radius := g.2 }

/-- Plane rotation by angle θ about the origin, as used by
matplotlib Affine2D().rotate(θ). -/
noncomputable def rotate2 (θ : ℝ) (p : ℝ × ℝ) : ℝ × ℝ :=
  (Real.cos θ * p.1 - Real.sin θ * p.2, Real.sin θ * p.1 + Real.cos θ * p.2)

/-- Plane translation, as used by matplotlib Affine2D().translate. -/
def translate2 (d : ℝ × ℝ) (p : ℝ × ℝ) : ℝ × ℝ := (p.1 + d.1, p.2 + d.2)

/-- The geometric content of the spur meshing placement: the two placed point
rings, the center distance, and the rotation angle applied to gear two. -/
structure SpurPlacement where
  gear1_points : List (ℝ × ℝ)
  gear2_points : List (ℝ × ℝ)
  center_distance : ℝ
  rotation_angle : ℝ

/-- export_gears_only (src/gear_generator.py lines 125-192), geometric part
only (figure and file handling stripped): gear one is placed untransformed;
center_distance = pitch_radius1 + pitch_radius2; rotation_angle = pi / teeth2;
gear two is rotated by rotation_angle and then translated by
(center_distance, 0).  The main function (lines 253-261) performs the same
computation. -/
noncomputable def export_gears_only (module : ℝ) (teeth1 teeth2 : ℕ)
    (pressure_angle clearance backlash : ℝ) : SpurPlacement :=
  let gear1_obj := mkInvoluteGear module teeth1 pressure_angle clearance backlash 0
  let gear2_obj := mkInvoluteGear module teeth2 pressure_angle clearance backlash 0
  let center_distance : ℝ := gear1_obj.pitch_radius + gear2_obj.pitch_radius
  let rotation_angle : ℝ := Real.pi / (teeth2 : ℝ)
  { gear1_points := gear1_obj.gear_poly
    gear2_points := gear2_obj.gear_poly.map
      (fun p => translate2 (center_distance, 0) (rotate2 rotation_angle p))
    center_distance := center_distance
    rotation_angle := rotation_angle }

/-- One entry of the bevel section stack, as appended by
BevelGear._generate_sections (src/bevel_gear_generator.py lines 113-118). -/
structure BevelSection where
  points : List (ℝ × ℝ)
  z : ℝ
  scale : ℝ
  radius : ℝ

/-- The scalar state stored by BevelGear.__init__
(src/bevel_gear_generator.py lines 28-68) before section generation. -/
structure BevelGear where
  module : ℝ
  teeth_number : ℕ
  pressure_angle : ℝ
  cone_angle : ℝ
  face_width : ℝ
  clearance : ℝ
  backlash : ℝ
  profile_shift : ℝ
  frame_count : ℕ
  tooth_width : ℝ
  pitch_radius : ℝ

/-- BevelGear.__init__ (src/bevel_gear_generator.py lines 28-68): stores the
parameters, sets tooth_width = pi * module and
pitch_radius = (teeth_number * module) / 2. -/
noncomputable def mkBevelGear (module : ℝ) (teeth_number : ℕ)
    (pressure_angle cone_angle face_width clearance backlash profile_shift : ℝ)
    (frame_count : ℕ) : BevelGear :=
  { module := module
    teeth_number := teeth_number
    pressure_angle := pressure_angle
    cone_angle := cone_angle
    face_width := face_width
    clearance := clearance
    backlash := backlash
    profile_shift := profile_shift
    frame_count := frame_count
    tooth_width := Real.pi * module
    pitch_radius := ((teeth_number : ℝ) * module) / 2 }

/-- The cone apex distance, src/bevel_gear_generator.py line 78 (recomputed
identically at lines 240 and 281):
apex_distance = pitch_radius / sin(radians(cone_angle)). -/
noncomputable def BevelGear.apex_distance (self : BevelGear) : ℝ :=
  self.pitch_radius / Real.sin (deg2rad self.cone_angle)

/-- The loop parameter t = i / (num_sections - 1) of
BevelGear._generate_sections (line 83). -/
noncomputable def tParam (num_sections i : ℕ) : ℝ :=
  (i : ℝ) / ((num_sections : ℝ) - 1)

/-- The scale factor of section i (lines 86-89):
scale = (apex_distance - t * face_width) / apex_distance. -/
noncomputable def BevelGear.scaleAt (self : BevelGear) (num_sections i : ℕ) : ℝ :=
  (self.apex_distance - tParam num_sections i * self.face_width) / self.apex_distance

/-- The section record built at loop index i (lines 91-118): the profile is
generated with tooth width pi * (module * scale), the axial position is
z = t * face_width, and the effective radius is pitch_radius * scale. -/
noncomputable def BevelGear.sectionAt (self : BevelGear) (num_sections i : ℕ) : BevelSection :=
  { points := (gear_generate self.teeth_number
      (Real.pi * (self.module * self.scaleAt num_sections i))
      (deg2rad self.pressure_angle) self.backlash self.frame_count).1
    z := tParam num_sections i * self.face_width
    scale := self.scaleAt num_sections i
    radius := self.pitch_radius * self.scaleAt num_sections i }

/-- BevelGear._generate_sections (src/bevel_gear_generator.py lines 73-120):
for i in range(num_sections), compute t = i / (num_sections - 1) (see tParam),
section_distance = apex_distance - t * face_width,
scale = section_distance / apex_distance (see scaleAt), and append a section
record (see sectionAt) exactly when scale > 0.1; the loop erases nothing and
raises nothing.  The Python callers always use the default
num_sections = 10. -/
noncomputable def BevelGear.sections (self : BevelGear) (num_sections : ℕ) : List BevelSection :=
  (List.range num_sections).foldl
    (fun sections i =>
      if 0.1 < self.scaleAt num_sections i then
        sections ++ [self.sectionAt num_sections i]
      else sections)
    []

/-- The optional section emitted at loop index i. -/
noncomputable def BevelGear.sectionOpt (self : BevelGear) (num_sections i : ℕ) :
    Option BevelSection :=
  if 0.1 < self.scaleAt num_sections i then some (self.sectionAt num_sections i) else none

/-- Rotation about the Y axis by angle θ, the rotation used on gear two by
export_bevel_gears (rg.Transform.Rotation(pi/2, (0,1,0), origin), line 237)
and by visualize_bevel_gears (R.from_euler with angle 90 degrees, line 285). -/
noncomputable def rotY (θ : ℝ) (p : ℝ × ℝ × ℝ) : ℝ × ℝ × ℝ :=
  (Real.cos θ * p.1 + Real.sin θ * p.2.2, p.2.1,
   -Real.sin θ * p.1 + Real.cos θ * p.2.2)

/-- The placement applied to gear two by export_bevel_gears
(src/bevel_gear_generator.py lines 236-245) and identically by
visualize_bevel_gears (lines 280-295): rotate by pi/2 about the Y axis, then
translate by (apex_distance1, 0, 0) where
apex_distance1 = gear1.pitch_radius / sin(radians(gear1.cone_angle)). -/
noncomputable def bevel_mesh_transform (gear1 : BevelGear) (p : ℝ × ℝ × ℝ) : ℝ × ℝ × ℝ :=
  let apex_distance1 : ℝ := gear1.pitch_radius / Real.sin (deg2rad gear1.cone_angle)
  let q := rotY (Real.pi / 2) p
  (q.1 + apex_distance1, q.2.1, q.2.2)

/-- The cone apex implied by the section stack: sections are centred on the Z
axis at height z = t * face_width with radius pitch_radius * scale, and
scale = (apex_distance - z) / apex_distance vanishes exactly at
z = apex_distance, so the cone tapers to the point (0, 0, apex_distance) on
the gear rotation axis. -/
noncomputable def apex_point (g : BevelGear) : ℝ × ℝ × ℝ :=
  (0, 0, g.apex_distance)

/-- The pair of bevel gears built by export_bevel_gears
(src/bevel_gear_generator.py lines 206-228) and identically by main
(lines 334-356): gear two uses cone angle 90 - cone_angle and otherwise the
same parameters, apart from its own tooth count. -/
noncomputable def export_bevel_gears_pair (module : ℝ) (teeth1 teeth2 : ℕ)
    (pressure_angle cone_angle face_width clearance backlash : ℝ)
    (frame_count : ℕ) : BevelGear × BevelGear :=
  (mkBevelGear module teeth1 pressure_angle cone_angle face_width
      clearance backlash 0 frame_count,
   mkBevelGear module teeth2 pressure_angle (90 - cone_angle) face_width
      clearance backlash 0 frame_count)

/-! Shared lemmas about the embedded definitions. -/

theorem foldl_if_append {β : Type} (c : ℕ → Prop) [DecidablePred c] (g : ℕ → β) :
    ∀ (l : List ℕ) (acc : List β),
      l.foldl (fun a i => if c i then a ++ [g i] else a) acc
        = acc ++ l.filterMap (fun i => if c i then some (g i) else none)
  | [], acc => by simp
  | i :: l, acc => by
    by_cases h : c i <;>
      simp [h, foldl_if_append c g l]

theorem BevelGear.sections_eq (self : BevelGear) (n : ℕ) :
    self.sections n = (List.range n).filterMap (self.sectionOpt n) := by
  have h := foldl_if_append (fun i => 0.1 < self.scaleAt n i)
      (fun i => self.sectionAt n i) (List.range n) []
  exact h.trans (List.nil_append _)

theorem BevelGear.sectionOpt_eq_some {self : BevelGear} {n i : ℕ} {s : BevelSection} :
    self.sectionOpt n i = some s ↔ 0.1 < self.scaleAt n i ∧ s = self.sectionAt n i := by
  rw [BevelGear.sectionOpt]
  by_cases h : 0.1 < self.scaleAt n i
  · rw [if_pos h]
    simp [h, eq_comm]
  · rw [if_neg h]
    simp [h]

theorem BevelGear.mem_sections {self : BevelGear} {n : ℕ} {s : BevelSection} :
    s ∈ self.sections n ↔
      ∃ i, i < n ∧ 0.1 < self.scaleAt n i ∧ s = self.sectionAt n i := by
  rw [self.sections_eq n]
  simp only [List.mem_filterMap, List.mem_range, BevelGear.sectionOpt_eq_some]

theorem tParam_zero (n : ℕ) : tParam n 0 = 0 := by
  simp [tParam]

theorem tParam_nonneg {n i : ℕ} (hn : 2 ≤ n) : 0 ≤ tParam n i := by
  have h2 : (2:ℝ) ≤ (n:ℝ) := by exact_mod_cast hn
  have hd : (0:ℝ) < (n:ℝ) - 1 := by linarith
  exact div_nonneg (Nat.cast_nonneg i) (le_of_lt hd)

theorem tParam_le_one {n i : ℕ} (hn : 2 ≤ n) (hi : i < n) : tParam n i ≤ 1 := by
  have h2 : (2:ℝ) ≤ (n:ℝ) := by exact_mod_cast hn
  have hd : (0:ℝ) < (n:ℝ) - 1 := by linarith
  have hi' : (i:ℝ) + 1 ≤ (n:ℝ) := by exact_mod_cast hi
  rw [tParam, div_le_one hd]
  linarith

theorem tParam_lt_tParam {n i j : ℕ} (hn : 2 ≤ n) (hij : i < j) :
    tParam n i < tParam n j := by
  have h2 : (2:ℝ) ≤ (n:ℝ) := by exact_mod_cast hn
  have hd : (0:ℝ) < (n:ℝ) - 1 := by linarith
  have hij' : (i:ℝ) < (j:ℝ) := by exact_mod_cast hij
  exact div_lt_div_of_pos_right hij' hd

theorem BevelGear.scaleAt_zero (self : BevelGear) (n : ℕ)
    (hapex : 0 < self.apex_distance) : self.scaleAt n 0 = 1 := by
  rw [BevelGear.scaleAt, tParam_zero, zero_mul, sub_zero,
    div_self (ne_of_gt hapex)]

theorem BevelGear.scaleAt_le_one {self : BevelGear} {n i : ℕ}
    (hapex : 0 < self.apex_distance) (hfw : 0 < self.face_width)
    (hn : 2 ≤ n) : self.scaleAt n i ≤ 1 := by
  rw [BevelGear.scaleAt, div_le_one hapex]
  have h1 : 0 ≤ tParam n i := tParam_nonneg hn
  nlinarith

theorem BevelGear.scaleAt_strict_anti {self : BevelGear} {n i j : ℕ}
    (hapex : 0 < self.apex_distance) (hfw : 0 < self.face_width)
    (hn : 2 ≤ n) (hij : i < j) : self.scaleAt n j < self.scaleAt n i := by
  rw [BevelGear.scaleAt, BevelGear.scaleAt]
  apply div_lt_div_of_pos_right ?_ hapex
  have := tParam_lt_tParam (n := n) hn hij
  nlinarith

theorem BevelGear.sections_pairwise_z (self : BevelGear) {n : ℕ}
    (hn : 2 ≤ n) (hfw : 0 < self.face_width) :
    List.Pairwise (fun a b => a.z < b.z) (self.sections n) := by
  rw [self.sections_eq n, List.pairwise_filterMap]
  apply (List.pairwise_lt_range n).imp
  intro i j hij s hs s' hs'
  obtain ⟨-, rfl⟩ := BevelGear.sectionOpt_eq_some.mp hs
  obtain ⟨-, rfl⟩ := BevelGear.sectionOpt_eq_some.mp hs'
  show tParam n i * self.face_width < tParam n j * self.face_width
  exact mul_lt_mul_of_pos_right (tParam_lt_tParam hn hij) hfw

theorem BevelGear.sections_pairwise_scale (self : BevelGear) {n : ℕ}
    (hapex : 0 < self.apex_distance) (hfw : 0 < self.face_width) (hn : 2 ≤ n) :
    List.Pairwise (fun a b => a.z < b.z ∧ b.scale < a.scale) (self.sections n) := by
  rw [self.sections_eq n, List.pairwise_filterMap]
  apply (List.pairwise_lt_range n).imp
  intro i j hij s hs s' hs'
  obtain ⟨-, rfl⟩ := BevelGear.sectionOpt_eq_some.mp hs
  obtain ⟨-, rfl⟩ := BevelGear.sectionOpt_eq_some.mp hs'
  constructor
  · exact mul_lt_mul_of_pos_right (tParam_lt_tParam hn hij) hfw
  · exact BevelGear.scaleAt_strict_anti hapex hfw hn hij

theorem BevelGear.sections_ten_head (self : BevelGear)
    (hapex : 0 < self.apex_distance) :
    ∃ l, self.sections 10 = self.sectionAt 10 0 :: l := by
  rw [self.sections_eq 10,
    show List.range 10 = 0 :: (List.range 9).map Nat.succ from List.range_succ_eq_map 9,
    List.filterMap_cons]
  have h0 : self.sectionOpt 10 0 = some (self.sectionAt 10 0) := by
    apply BevelGear.sectionOpt_eq_some.mpr
    refine ⟨?_, rfl⟩
    rw [self.scaleAt_zero 10 hapex]
    norm_num
  rw [h0]
  exact ⟨_, rfl⟩

theorem BevelGear.sections_ten_truncated (self : BevelGear)
    (hapex : 0 < self.apex_distance)
    (hge : self.apex_distance ≤ self.face_width) :
    (self.sections 10).length < 10 := by
  rw [self.sections_eq 10,
    show List.range 10 = List.range 9 ++ [9] from List.range_succ 9,
    List.filterMap_append]
  have h9 : self.sectionOpt 10 9 = none := by
    rw [BevelGear.sectionOpt, if_neg]
    have ht : tParam 10 9 = 1 := by
      rw [tParam]; norm_num
    rw [BevelGear.scaleAt, ht, one_mul]
    have hnum : self.apex_distance - self.face_width ≤ 0 := sub_nonpos.mpr hge
    have : (self.apex_distance - self.face_width) / self.apex_distance ≤ 0 :=
      div_nonpos_iff.mpr (Or.inr ⟨hnum, le_of_lt hapex⟩)
    intro hlt
    norm_num at hlt
    linarith
  simp only [List.filterMap_cons, h9, List.filterMap_nil, List.append_nil]
  have hle : ((List.range 9).filterMap (self.sectionOpt 10)).length ≤ 9 := by
    have := List.length_filterMap_le (self.sectionOpt 10) (List.range 9)
    simpa using this
  omega

theorem sin_deg2rad_90 : Real.sin (deg2rad 90) = 1 := by
  rw [deg2rad, show (90:ℝ) * Real.pi / 180 = Real.pi / 2 by ring,
    Real.sin_pi_div_two]

theorem sin_deg2rad_45 : Real.sin (deg2rad 45) = Real.sqrt 2 / 2 := by
  rw [deg2rad, show (45:ℝ) * Real.pi / 180 = Real.pi / 4 by ring,
    Real.sin_pi_div_four]

theorem mkInvoluteGear_pitch_radius (m : ℝ) (T : ℕ) (pa cl bl ps : ℝ) :
    (mkInvoluteGear m T pa cl bl ps).pitch_radius = m * (T : ℝ) / 2 := by
  show Real.pi * m * (T : ℝ) / (2 * Real.pi) = m * (T : ℝ) / 2
  field_simp
  ring

theorem mkBevelGear_apex_90 (m : ℝ) (T : ℕ) (pa fw cl bl ps : ℝ) (fc : ℕ) :
    (mkBevelGear m T pa 90 fw cl bl ps fc).apex_distance = (T : ℝ) * m / 2 := by
  show ((T : ℝ) * m / 2) / Real.sin (deg2rad 90) = (T : ℝ) * m / 2
  rw [sin_deg2rad_90, div_one]

theorem rotY_pi_div_two (p : ℝ × ℝ × ℝ) :
    rotY (Real.pi / 2) p = (p.2.2, p.2.1, -p.1) := by
  rw [rotY, Real.cos_pi_div_two, Real.sin_pi_div_two]
  norm_num

theorem bevel_mesh_transform_eq (gear1 : BevelGear) (p : ℝ × ℝ × ℝ) :
    bevel_mesh_transform gear1 p
      = ((rotY (Real.pi / 2) p).1 + gear1.apex_distance,
         (rotY (Real.pi / 2) p).2.1, (rotY (Real.pi / 2) p).2.2) := rfl

theorem bevel_mesh_apex_image (gear1 gear2 : BevelGear) :
    bevel_mesh_transform gear1 (apex_point gear2)
      = (gear2.apex_distance + gear1.apex_distance, 0, 0) := by
  rw [bevel_mesh_transform_eq, rotY_pi_div_two]
  show (gear2.apex_distance + gear1.apex_distance, (0:ℝ), -(0:ℝ))
      = (gear2.apex_distance + gear1.apex_distance, 0, 0)
  norm_num

theorem mkBevelGear_apex_45 (m : ℝ) (T : ℕ) (pa fw cl bl ps : ℝ) (fc : ℕ) :
    (mkBevelGear m T pa 45 fw cl bl ps fc).apex_distance
      = ((T : ℝ) * m / 2) / (Real.sqrt 2 / 2) := by
  show ((T : ℝ) * m / 2) / Real.sin (deg2rad 45) = ((T : ℝ) * m / 2) / (Real.sqrt 2 / 2)
  rw [sin_deg2rad_45]

/-! Claim theorems. -/

/-- Claim C7: for every bevel gear pair constructed for mating, the second
gear is built with cone angle equal to 90 minus the first gear cone angle in
degrees, with module, pressure angle, face width, clearance, backlash and
sample count taken unchanged. -/
theorem C7_complementary_cone_angle (m : ℝ) (T1 T2 : ℕ) (pa ca fw cl bl : ℝ) (fc : ℕ) :
    (export_bevel_gears_pair m T1 T2 pa ca fw cl bl fc).2.cone_angle
        = 90 - (export_bevel_gears_pair m T1 T2 pa ca fw cl bl fc).1.cone_angle
    ∧ (export_bevel_gears_pair m T1 T2 pa ca fw cl bl fc).2.module
        = (export_bevel_gears_pair m T1 T2 pa ca fw cl bl fc).1.module
    ∧ (export_bevel_gears_pair m T1 T2 pa ca fw cl bl fc).2.pressure_angle
        = (export_bevel_gears_pair m T1 T2 pa ca fw cl bl fc).1.pressure_angle
    ∧ (export_bevel_gears_pair m T1 T2 pa ca fw cl bl fc).2.face_width
        = (export_bevel_gears_pair m T1 T2 pa ca fw cl bl fc).1.face_width
    ∧ (export_bevel_gears_pair m T1 T2 pa ca fw cl bl fc).2.clearance
        = (export_bevel_gears_pair m T1 T2 pa ca fw cl bl fc).1.clearance
    ∧ (export_bevel_gears_pair m T1 T2 pa ca fw cl bl fc).2.backlash
        = (export_bevel_gears_pair m T1 T2 pa ca fw cl bl fc).1.backlash
    ∧ (export_bevel_gears_pair m T1 T2 pa ca fw cl bl fc).2.frame_count
        = (export_bevel_gears_pair m T1 T2 pa ca fw cl bl fc).1.frame_count :=
  ⟨rfl, rfl, rfl, rfl, rfl, rfl, rfl⟩

/-- Claim C8: for every gear constructed from a module and tooth count, the
derived pitch radius equals module * teethCount / 2 exactly (module 5 with
20 teeth gives pitch radius 50), and the tooth width passed to profile
generation equals pi * module exactly. -/
theorem C8_pitch_radius_and_tooth_width (m : ℝ) (T : ℕ) (pa cl bl ps ca fw : ℝ) (fc : ℕ) :
    (mkInvoluteGear m T pa cl bl ps).pitch_radius = m * (T : ℝ) / 2
    ∧ (mkInvoluteGear m T pa cl bl ps).tooth_width = Real.pi * m
    ∧ (mkBevelGear m T pa ca fw cl bl ps fc).pitch_radius = m * (T : ℝ) / 2
    ∧ (mkBevelGear m T pa ca fw cl bl ps fc).tooth_width = Real.pi * m
    ∧ (mkInvoluteGear 5 20 20 (1/4) 0 0).pitch_radius = 50 := by
  refine ⟨mkInvoluteGear_pitch_radius m T pa cl bl ps, rfl, ?_, rfl, ?_⟩
  · show (T : ℝ) * m / 2 = m * (T : ℝ) / 2
    ring
  · rw [mkInvoluteGear_pitch_radius]
    norm_num

/-- Claim C9: profile and section generation is deterministic: constructing a
gear twice from identical arguments yields identical profile point sequences,
identical derived scalars, and identical section stacks; the embedded
constructors are pure functions of their arguments. -/
theorem C9_determinism (m m' : ℝ) (T T' : ℕ) (pa pa' cl cl' bl bl' ps ps' ca ca' fw fw' : ℝ)
    (fc fc' : ℕ)
    (h : (m, T, pa, cl, bl, ps, ca, fw, fc) = (m', T', pa', cl', bl', ps', ca', fw', fc')) :
    mkInvoluteGear m T pa cl bl ps = mkInvoluteGear m' T' pa' cl' bl' ps'
    ∧ mkBevelGear m T pa ca fw cl bl ps fc = mkBevelGear m' T' pa' ca' fw' cl' bl' ps' fc'
    ∧ (mkBevelGear m T pa ca fw cl bl ps fc).sections 10
        = (mkBevelGear m' T' pa' ca' fw' cl' bl' ps' fc').sections 10
    ∧ gear_generate T (Real.pi * m) (deg2rad pa) bl fc
        = gear_generate T' (Real.pi * m') (deg2rad pa') bl' fc' := by
  simp only [Prod.mk.injEq] at h
  obtain ⟨h1, h2, h3, h4, h5, h6, h7, h8, h9⟩ := h
  subst h1; subst h2; subst h3; subst h4; subst h5; subst h6; subst h7; subst h8; subst h9
  exact ⟨rfl, rfl, rfl, rfl⟩

/-- Witness for C9 at concrete identical inputs. -/
theorem C9_witness :
    ((1:ℝ), (30:ℕ), (20:ℝ), (1/4:ℝ), (0:ℝ), (0:ℝ), (45:ℝ), (10:ℝ), (16:ℕ))
        = ((1:ℝ), (30:ℕ), (20:ℝ), (1/4:ℝ), (0:ℝ), (0:ℝ), (45:ℝ), (10:ℝ), (16:ℕ))
    ∧ (mkInvoluteGear 1 30 20 (1/4) 0 0 = mkInvoluteGear 1 30 20 (1/4) 0 0
        ∧ mkBevelGear 1 30 20 45 10 (1/4) 0 0 16 = mkBevelGear 1 30 20 45 10 (1/4) 0 0 16
        ∧ (mkBevelGear 1 30 20 45 10 (1/4) 0 0 16).sections 10
            = (mkBevelGear 1 30 20 45 10 (1/4) 0 0 16).sections 10
        ∧ gear_generate 30 (Real.pi * 1) (deg2rad 20) 0 16
            = gear_generate 30 (Real.pi * 1) (deg2rad 20) 0 16) :=
  ⟨rfl, C9_determinism 1 1 30 30 20 20 (1/4) (1/4) 0 0 0 0 45 45 10 10 16 16 rfl⟩

/-- Claim C3: for every pair of spur gears with positive pitch radii, the
meshing placement sets centerDistance = pitchRadiusA + pitchRadiusB, applies
a rotation of pi / teethCountB radians to gear B only (gear A is placed
untransformed), followed by the translation (centerDistance, 0); for
module 1 with 30 and 15 teeth the center distance is 22.5 and the rotation
angle is pi / 15. -/
theorem C3_spur_meshing (m : ℝ) (T1 T2 : ℕ) (pa cl bl : ℝ)
    (h1 : 0 < (mkInvoluteGear m T1 pa cl bl 0).pitch_radius)
    (h2 : 0 < (mkInvoluteGear m T2 pa cl bl 0).pitch_radius) :
    (export_gears_only m T1 T2 pa cl bl).center_distance
        = (mkInvoluteGear m T1 pa cl bl 0).pitch_radius
          + (mkInvoluteGear m T2 pa cl bl 0).pitch_radius
    ∧ (export_gears_only m T1 T2 pa cl bl).rotation_angle = Real.pi / (T2 : ℝ)
    ∧ (export_gears_only m T1 T2 pa cl bl).gear1_points
        = (mkInvoluteGear m T1 pa cl bl 0).gear_poly
    ∧ (export_gears_only m T1 T2 pa cl bl).gear2_points
        = (mkInvoluteGear m T2 pa cl bl 0).gear_poly.map
            (fun p => translate2 ((export_gears_only m T1 T2 pa cl bl).center_distance, 0)
              (rotate2 ((export_gears_only m T1 T2 pa cl bl).rotation_angle) p))
    ∧ (export_gears_only 1 30 15 20 (1/4) 0).center_distance = 45 / 2
    ∧ (export_gears_only 1 30 15 20 (1/4) 0).rotation_angle = Real.pi / 15 := by
  refine ⟨rfl, rfl, rfl, rfl, ?_, ?_⟩
  · show (mkInvoluteGear 1 30 20 (1/4) 0 0).pitch_radius
        + (mkInvoluteGear 1 15 20 (1/4) 0 0).pitch_radius = 45 / 2
    rw [mkInvoluteGear_pitch_radius, mkInvoluteGear_pitch_radius]
    norm_num
  · show Real.pi / ((15:ℕ) : ℝ) = Real.pi / 15
    norm_num

/-- Witness for C3 at module 1 with 30 and 15 teeth. -/
theorem C3_witness :
    0 < (mkInvoluteGear 1 30 20 (1/4) 0 0).pitch_radius
    ∧ 0 < (mkInvoluteGear 1 15 20 (1/4) 0 0).pitch_radius
    ∧ ((export_gears_only 1 30 15 20 (1/4) 0).center_distance
          = (mkInvoluteGear 1 30 20 (1/4) 0 0).pitch_radius
            + (mkInvoluteGear 1 15 20 (1/4) 0 0).pitch_radius
        ∧ (export_gears_only 1 30 15 20 (1/4) 0).rotation_angle = Real.pi / ((15:ℕ) : ℝ)
        ∧ (export_gears_only 1 30 15 20 (1/4) 0).gear1_points
            = (mkInvoluteGear 1 30 20 (1/4) 0 0).gear_poly
        ∧ (export_gears_only 1 30 15 20 (1/4) 0).gear2_points
            = (mkInvoluteGear 1 15 20 (1/4) 0 0).gear_poly.map
                (fun p => translate2 ((export_gears_only 1 30 15 20 (1/4) 0).center_distance, 0)
                  (rotate2 ((export_gears_only 1 30 15 20 (1/4) 0).rotation_angle) p))
        ∧ (export_gears_only 1 30 15 20 (1/4) 0).center_distance = 45 / 2
        ∧ (export_gears_only 1 30 15 20 (1/4) 0).rotation_angle = Real.pi / 15) :=
  ⟨by rw [mkInvoluteGear_pitch_radius]; norm_num,
   by rw [mkInvoluteGear_pitch_radius]; norm_num,
   C3_spur_meshing 1 30 15 20 (1/4) 0
     (by rw [mkInvoluteGear_pitch_radius]; norm_num)
     (by rw [mkInvoluteGear_pitch_radius]; norm_num)⟩

/-- Claim C5: for every bevel gear construction with positive faceWidth and
positive apexDistance, the section scale values are strictly decreasing as
axialOffset increases, and the first section (at axialOffset 0) has scale
exactly 1. -/
theorem C5_scale_strictly_decreasing (m : ℝ) (T : ℕ) (pa ca fw cl bl ps : ℝ) (fc : ℕ)
    (hfw : 0 < fw)
    (hapex : 0 < (mkBevelGear m T pa ca fw cl bl ps fc).apex_distance) :
    List.Pairwise (fun a b => a.z < b.z ∧ b.scale < a.scale)
      ((mkBevelGear m T pa ca fw cl bl ps fc).sections 10)
    ∧ (∃ l, (mkBevelGear m T pa ca fw cl bl ps fc).sections 10
          = (mkBevelGear m T pa ca fw cl bl ps fc).sectionAt 10 0 :: l)
    ∧ ((mkBevelGear m T pa ca fw cl bl ps fc).sectionAt 10 0).z = 0
    ∧ ((mkBevelGear m T pa ca fw cl bl ps fc).sectionAt 10 0).scale = 1 := by
  refine ⟨(mkBevelGear m T pa ca fw cl bl ps fc).sections_pairwise_scale hapex hfw (by norm_num),
    (mkBevelGear m T pa ca fw cl bl ps fc).sections_ten_head hapex, ?_,
    (mkBevelGear m T pa ca fw cl bl ps fc).scaleAt_zero 10 hapex⟩
  show tParam 10 0 * fw = 0
  rw [tParam_zero, zero_mul]

/-- Witness for C5 at module 5, 20 teeth, cone angle 90, face width 15. -/
theorem C5_witness :
    (0:ℝ) < 15
    ∧ 0 < (mkBevelGear 5 20 20 90 15 (1/4) 0 0 16).apex_distance
    ∧ (List.Pairwise (fun a b => a.z < b.z ∧ b.scale < a.scale)
          ((mkBevelGear 5 20 20 90 15 (1/4) 0 0 16).sections 10)
        ∧ (∃ l, (mkBevelGear 5 20 20 90 15 (1/4) 0 0 16).sections 10
              = (mkBevelGear 5 20 20 90 15 (1/4) 0 0 16).sectionAt 10 0 :: l)
        ∧ ((mkBevelGear 5 20 20 90 15 (1/4) 0 0 16).sectionAt 10 0).z = 0
        ∧ ((mkBevelGear 5 20 20 90 15 (1/4) 0 0 16).sectionAt 10 0).scale = 1) :=
  ⟨by norm_num,
   by rw [mkBevelGear_apex_90]; norm_num,
   C5_scale_strictly_decreasing 5 20 20 90 15 (1/4) 0 0 16 (by norm_num)
     (by rw [mkBevelGear_apex_90]; norm_num)⟩

/-- Claim C10: for every bevel gear with positive faceWidth strictly less
than 0.9 times the apex distance, every emitted section has
0.1 < scale <= 1, 0 <= axialOffset <= faceWidth and
effectiveRadius = pitchRadius * scale; the large end section with scale
exactly 1 and axialOffset exactly 0 is the first element, and the stack is
never empty. -/
theorem C10_section_invariants (m : ℝ) (T : ℕ) (pa ca fw cl bl ps : ℝ) (fc : ℕ)
    (hfw : 0 < fw)
    (hlt : fw < 0.9 * (mkBevelGear m T pa ca fw cl bl ps fc).apex_distance) :
    (∀ s ∈ (mkBevelGear m T pa ca fw cl bl ps fc).sections 10,
        0.1 < s.scale ∧ s.scale ≤ 1 ∧ 0 ≤ s.z ∧ s.z ≤ fw
          ∧ s.radius = (mkBevelGear m T pa ca fw cl bl ps fc).pitch_radius * s.scale)
    ∧ (∃ l, (mkBevelGear m T pa ca fw cl bl ps fc).sections 10
          = (mkBevelGear m T pa ca fw cl bl ps fc).sectionAt 10 0 :: l)
    ∧ ((mkBevelGear m T pa ca fw cl bl ps fc).sectionAt 10 0).scale = 1
    ∧ ((mkBevelGear m T pa ca fw cl bl ps fc).sectionAt 10 0).z = 0
    ∧ (mkBevelGear m T pa ca fw cl bl ps fc).sections 10 ≠ [] := by
  have hapex : 0 < (mkBevelGear m T pa ca fw cl bl ps fc).apex_distance := by nlinarith
  obtain ⟨l, hl⟩ := (mkBevelGear m T pa ca fw cl bl ps fc).sections_ten_head hapex
  refine ⟨?_, ⟨l, hl⟩, (mkBevelGear m T pa ca fw cl bl ps fc).scaleAt_zero 10 hapex, ?_, ?_⟩
  · intro s hs
    obtain ⟨i, hi, hsc, rfl⟩ := BevelGear.mem_sections.mp hs
    refine ⟨hsc, BevelGear.scaleAt_le_one hapex hfw (by norm_num), ?_, ?_, rfl⟩
    · show 0 ≤ tParam 10 i * fw
      exact mul_nonneg (tParam_nonneg (by norm_num)) (le_of_lt hfw)
    · show tParam 10 i * fw ≤ fw
      have := tParam_le_one (n := 10) (by norm_num) hi
      nlinarith
  · show tParam 10 0 * fw = 0
    rw [tParam_zero, zero_mul]
  · rw [hl]
    exact List.cons_ne_nil _ _

/-- Witness for C10 at module 5, 20 teeth, cone angle 90, face width 15. -/
theorem C10_witness :
    (0:ℝ) < 15
    ∧ (15:ℝ) < 0.9 * (mkBevelGear 5 20 20 90 15 (1/4) 0 0 16).apex_distance
    ∧ ((∀ s ∈ (mkBevelGear 5 20 20 90 15 (1/4) 0 0 16).sections 10,
          0.1 < s.scale ∧ s.scale ≤ 1 ∧ 0 ≤ s.z ∧ s.z ≤ 15
            ∧ s.radius = (mkBevelGear 5 20 20 90 15 (1/4) 0 0 16).pitch_radius * s.scale)
        ∧ (∃ l, (mkBevelGear 5 20 20 90 15 (1/4) 0 0 16).sections 10
              = (mkBevelGear 5 20 20 90 15 (1/4) 0 0 16).sectionAt 10 0 :: l)
        ∧ ((mkBevelGear 5 20 20 90 15 (1/4) 0 0 16).sectionAt 10 0).scale = 1
        ∧ ((mkBevelGear 5 20 20 90 15 (1/4) 0 0 16).sectionAt 10 0).z = 0
        ∧ (mkBevelGear 5 20 20 90 15 (1/4) 0 0 16).sections 10 ≠ []) :=
  ⟨by norm_num,
   by rw [mkBevelGear_apex_90]; norm_num,
   C10_section_invariants 5 20 20 90 15 (1/4) 0 0 16 (by norm_num)
     (by rw [mkBevelGear_apex_90]; norm_num)⟩

/-- Claim C4 counterexample: the claim quantifies over every bevel gear
construction, but a gear constructed with face width 0 (accepted by the
constructor) yields ten sections whose axial offsets are all 0, so the
returned sequence is not ordered by strictly increasing axialOffset. -/
theorem C4_counterexample :
    ¬ List.Pairwise (fun a b => a.z < b.z)
        ((mkBevelGear 5 20 20 90 0 (1/4) 0 0 16).sections 10) := by
  intro hpw
  have hapex : (mkBevelGear 5 20 20 90 0 (1/4) 0 0 16).apex_distance = 50 := by
    rw [mkBevelGear_apex_90]; norm_num
  have hscale : ∀ i : ℕ, (mkBevelGear 5 20 20 90 0 (1/4) 0 0 16).scaleAt 10 i = 1 := by
    intro i
    rw [BevelGear.scaleAt, hapex]
    show ((50:ℝ) - tParam 10 i * 0) / 50 = 1
    rw [mul_zero, sub_zero]
    norm_num
  rw [BevelGear.sections_eq, List.pairwise_filterMap] at hpw
  have h01 := List.pairwise_iff_getElem.mp hpw 0 1 (by simp) (by simp) (by norm_num)
  simp only [List.getElem_range] at h01
  have hopt : ∀ i : ℕ, (mkBevelGear 5 20 20 90 0 (1/4) 0 0 16).sectionOpt 10 i
      = some ((mkBevelGear 5 20 20 90 0 (1/4) 0 0 16).sectionAt 10 i) := by
    intro i
    rw [BevelGear.sectionOpt, if_pos]
    rw [hscale i]
    norm_num
  have hz := h01 ((mkBevelGear 5 20 20 90 0 (1/4) 0 0 16).sectionAt 10 0)
      (Option.mem_def.mpr (hopt 0))
      ((mkBevelGear 5 20 20 90 0 (1/4) 0 0 16).sectionAt 10 1)
      (Option.mem_def.mpr (hopt 1))
  have hz0 : ∀ i : ℕ, ((mkBevelGear 5 20 20 90 0 (1/4) 0 0 16).sectionAt 10 i).z = 0 := by
    intro i
    show tParam 10 i * 0 = 0
    rw [mul_zero]
  rw [hz0 0, hz0 1] at hz
  exact lt_irrefl 0 hz

/-- Claim C4 (amended): for every bevel gear construction, sections whose
scale is at or below the 0.1 threshold are dropped from the output rather
than causing an error, so the returned sequence may contain fewer than
sectionCount entries; provided the face width is positive, the returned
sequence is ordered by strictly increasing axialOffset from the large end
toward the small end. -/
theorem C4_amended_drop_policy (m : ℝ) (T : ℕ) (pa ca fw cl bl ps : ℝ) (fc : ℕ)
    (hfw : 0 < fw) :
    (∀ s ∈ (mkBevelGear m T pa ca fw cl bl ps fc).sections 10, 0.1 < s.scale)
    ∧ ((mkBevelGear m T pa ca fw cl bl ps fc).sections 10).length ≤ 10
    ∧ List.Pairwise (fun a b => a.z < b.z)
        ((mkBevelGear m T pa ca fw cl bl ps fc).sections 10) := by
  refine ⟨?_, ?_, (mkBevelGear m T pa ca fw cl bl ps fc).sections_pairwise_z (by norm_num) hfw⟩
  · intro s hs
    obtain ⟨i, hi, hsc, rfl⟩ := BevelGear.mem_sections.mp hs
    exact hsc
  · rw [BevelGear.sections_eq]
    have h := List.length_filterMap_le
      ((mkBevelGear m T pa ca fw cl bl ps fc).sectionOpt 10) (List.range 10)
    simpa using h

/-- Witness for the amended C4 at face width 15. -/
theorem C4_witness :
    (0:ℝ) < 15
    ∧ ((∀ s ∈ (mkBevelGear 5 20 20 45 15 (1/4) 0 0 16).sections 10, 0.1 < s.scale)
        ∧ ((mkBevelGear 5 20 20 45 15 (1/4) 0 0 16).sections 10).length ≤ 10
        ∧ List.Pairwise (fun a b => a.z < b.z)
            ((mkBevelGear 5 20 20 45 15 (1/4) 0 0 16).sections 10)) :=
  ⟨by norm_num, C4_amended_drop_policy 5 20 20 45 15 (1/4) 0 0 16 (by norm_num)⟩

/-- Claim C2 counterexample: with module 5, 20 teeth, cone angle 90 and face
width 50 the apex distance is 50, so faceWidth is greater than or equal to
apexDistance; yet no error is raised: the construction computes sections
(the large end section with scale 1 comes first) and silently truncates the
stack to fewer than ten entries. -/
theorem C2_counterexample :
    (mkBevelGear 5 20 20 90 50 (1/4) 0 0 16).apex_distance
        ≤ (mkBevelGear 5 20 20 90 50 (1/4) 0 0 16).face_width
    ∧ (∃ l, (mkBevelGear 5 20 20 90 50 (1/4) 0 0 16).sections 10
          = (mkBevelGear 5 20 20 90 50 (1/4) 0 0 16).sectionAt 10 0 :: l)
    ∧ ((mkBevelGear 5 20 20 90 50 (1/4) 0 0 16).sectionAt 10 0).scale = 1
    ∧ ((mkBevelGear 5 20 20 90 50 (1/4) 0 0 16).sections 10).length < 10 := by
  have hapex : (mkBevelGear 5 20 20 90 50 (1/4) 0 0 16).apex_distance = 50 := by
    rw [mkBevelGear_apex_90]; norm_num
  have hpos : 0 < (mkBevelGear 5 20 20 90 50 (1/4) 0 0 16).apex_distance := by
    rw [hapex]; norm_num
  have hge : (mkBevelGear 5 20 20 90 50 (1/4) 0 0 16).apex_distance
      ≤ (mkBevelGear 5 20 20 90 50 (1/4) 0 0 16).face_width := by
    rw [hapex]
    show (50:ℝ) ≤ 50
    norm_num
  exact ⟨hge, (mkBevelGear 5 20 20 90 50 (1/4) 0 0 16).sections_ten_head hpos,
    (mkBevelGear 5 20 20 90 50 (1/4) 0 0 16).scaleAt_zero 10 hpos,
    (mkBevelGear 5 20 20 90 50 (1/4) 0 0 16).sections_ten_truncated hpos hge⟩

/-- Claim C2 (amended): when faceWidth is at least the (positive) apex
distance no error is raised; the sections are still computed, every section
whose scale is at or below 0.1 (in particular every zero or negative scale)
is silently dropped, and the stack is silently truncated to fewer than
sectionCount entries. -/
theorem C2_amended_silent_truncation (m : ℝ) (T : ℕ) (pa ca fw cl bl ps : ℝ) (fc : ℕ)
    (hapex : 0 < (mkBevelGear m T pa ca fw cl bl ps fc).apex_distance)
    (hge : (mkBevelGear m T pa ca fw cl bl ps fc).apex_distance ≤ fw) :
    (∀ s ∈ (mkBevelGear m T pa ca fw cl bl ps fc).sections 10, 0.1 < s.scale)
    ∧ ((mkBevelGear m T pa ca fw cl bl ps fc).sections 10).length < 10 := by
  refine ⟨?_, (mkBevelGear m T pa ca fw cl bl ps fc).sections_ten_truncated hapex hge⟩
  intro s hs
  obtain ⟨i, hi, hsc, rfl⟩ := BevelGear.mem_sections.mp hs
  exact hsc

/-- Witness for the amended C2 at module 5, 20 teeth, cone angle 90, face
width 60. -/
theorem C2_witness :
    0 < (mkBevelGear 5 20 20 90 60 (1/4) 0 0 16).apex_distance
    ∧ (mkBevelGear 5 20 20 90 60 (1/4) 0 0 16).apex_distance ≤ 60
    ∧ ((∀ s ∈ (mkBevelGear 5 20 20 90 60 (1/4) 0 0 16).sections 10, 0.1 < s.scale)
        ∧ ((mkBevelGear 5 20 20 90 60 (1/4) 0 0 16).sections 10).length < 10) :=
  ⟨by rw [mkBevelGear_apex_90]; norm_num,
   by rw [mkBevelGear_apex_90]; norm_num,
   C2_amended_silent_truncation 5 20 20 90 60 (1/4) 0 0 16
     (by rw [mkBevelGear_apex_90]; norm_num)
     (by rw [mkBevelGear_apex_90]; norm_num)⟩

/-- Claim C1: for every bevel gear with cone angle in (0, 90] degrees, the
section stack is built from apexDistance = pitchRadius / sin(coneAngle in
radians), and for each loop index i with t = i / (sectionCount - 1) the
emitted section uses sectionDistanceFromApex = apexDistance - t * faceWidth,
scale = sectionDistanceFromApex / apexDistance, effectiveModule =
module * scale (the profile tooth width is pi * effectiveModule),
effectiveRadius = pitchRadius * scale and axialOffset = t * faceWidth; for
module 5, 20 teeth and cone angle 45 degrees the apex distance is
50 / sin(45 degrees). -/
theorem C1_section_stack_formulas (m : ℝ) (T : ℕ) (pa ca fw cl bl ps : ℝ) (fc : ℕ)
    (h0 : 0 < ca) (h90 : ca ≤ 90) :
    (mkBevelGear m T pa ca fw cl bl ps fc).apex_distance
        = ((T : ℝ) * m / 2) / Real.sin (ca * Real.pi / 180)
    ∧ (mkBevelGear m T pa ca fw cl bl ps fc).sections 10
        = (List.range 10).filterMap (fun (i : ℕ) =>
            let t : ℝ := (i : ℝ) / 9
            let apexd : ℝ := ((T : ℝ) * m / 2) / Real.sin (ca * Real.pi / 180)
            let scale : ℝ := (apexd - t * fw) / apexd
            if 0.1 < scale then
              some { points := (gear_generate T (Real.pi * (m * scale))
                        (pa * Real.pi / 180) bl fc).1,
                     z := t * fw, scale := scale,
                     radius := ((T : ℝ) * m / 2) * scale }
            else none)
    ∧ (mkBevelGear 5 20 pa 45 fw cl bl ps fc).apex_distance
        = 50 / Real.sin (45 * Real.pi / 180) := by
  refine ⟨rfl, ?_, ?_⟩
  · rw [BevelGear.sections_eq]
    apply List.filterMap_congr
    intro i hi
    have ht : tParam 10 i = (i : ℝ) / 9 := by
      rw [tParam]
      norm_num
    rw [BevelGear.sectionOpt]
    simp only [BevelGear.scaleAt, BevelGear.sectionAt, BevelGear.apex_distance,
      ht, deg2rad, mkBevelGear]
  · show ((20 : ℕ) : ℝ) * 5 / 2 / Real.sin (deg2rad 45)
        = 50 / Real.sin (45 * Real.pi / 180)
    rw [deg2rad]
    norm_num

/-- Witness for C1 at module 5, 20 teeth, cone angle 45, face width 15. -/
theorem C1_witness :
    (0:ℝ) < 45
    ∧ (45:ℝ) ≤ 90
    ∧ ((mkBevelGear 5 20 20 45 15 (1/4) 0 0 16).apex_distance
          = (((20:ℕ) : ℝ) * 5 / 2) / Real.sin (45 * Real.pi / 180)
        ∧ (mkBevelGear 5 20 20 45 15 (1/4) 0 0 16).sections 10
            = (List.range 10).filterMap (fun (i : ℕ) =>
                let t : ℝ := (i : ℝ) / 9
                let apexd : ℝ := (((20:ℕ) : ℝ) * 5 / 2) / Real.sin (45 * Real.pi / 180)
                let scale : ℝ := (apexd - t * 15) / apexd
                if 0.1 < scale then
                  some { points := (gear_generate 20 (Real.pi * (5 * scale))
                            (20 * Real.pi / 180) 0 16).1,
                         z := t * 15, scale := scale,
                         radius := (((20:ℕ) : ℝ) * 5 / 2) * scale }
                else none)
        ∧ (mkBevelGear 5 20 20 45 15 (1/4) 0 0 16).apex_distance
            = 50 / Real.sin (45 * Real.pi / 180)) :=
  ⟨by norm_num, by norm_num,
   C1_section_stack_formulas 5 20 20 45 15 (1/4) 0 0 16 (by norm_num) (by norm_num)⟩

/-- Claim C6 counterexample: for the mating pair with module 5, 20 teeth and
cone angle 45, the image of the apex of gear B under the placement transform
does not coincide with the apex of gear A, and the apex of gear A is not at
the origin: the translation of the transform is along the X axis, not along
the gear A rotation axis. -/
theorem C6_counterexample :
    bevel_mesh_transform (mkBevelGear 5 20 20 45 15 (1/4) 0 0 16)
        (apex_point (mkBevelGear 5 20 20 (90 - 45) 15 (1/4) 0 0 16))
      ≠ apex_point (mkBevelGear 5 20 20 45 15 (1/4) 0 0 16)
    ∧ apex_point (mkBevelGear 5 20 20 45 15 (1/4) 0 0 16) ≠ (0, 0, 0) := by
  have hs2 : 0 < Real.sqrt 2 / 2 := by
    have h2 : 0 < Real.sqrt 2 := Real.sqrt_pos.mpr (by norm_num)
    linarith
  have hpos : 0 < (mkBevelGear 5 20 20 45 15 (1/4) 0 0 16).apex_distance := by
    rw [mkBevelGear_apex_45]
    apply div_pos (by norm_num) hs2
  have hpos2 : 0 < (mkBevelGear 5 20 20 (90 - 45) 15 (1/4) 0 0 16).apex_distance := by
    have h45 : (mkBevelGear 5 20 20 (90 - 45) 15 (1/4) 0 0 16).apex_distance
        = ((20:ℕ) : ℝ) * 5 / 2 / Real.sin (deg2rad (90 - 45)) := rfl
    rw [h45, show ((90:ℝ) - 45) = 45 by norm_num, sin_deg2rad_45]
    apply div_pos (by norm_num) hs2
  constructor
  · intro h
    rw [bevel_mesh_apex_image] at h
    have h1 := congrArg Prod.fst h
    simp only [apex_point] at h1
    linarith
  · intro h
    have h1 := congrArg (fun q => q.2.2) h
    simp only [apex_point] at h1
    linarith

/-- Claim C6 (amended): the placement rotates the gear B section stack by 90
degrees about the Y axis (the axis perpendicular to the two gear rotation
axes after placement) and then translates it by apexDistanceA =
gearA.pitchRadius / sin(gearA.coneAngle in radians) along the X axis, i.e.
along the rotated gear B axis, not along the gear A axis; the two cone axes
become orthogonal, but the apex of gear B is mapped to
(apexDistanceB + apexDistanceA, 0, 0), which in general coincides neither
with the apex of gear A at (0, 0, apexDistanceA) nor with the origin. -/
theorem C6_amended_mesh_transform (gear1 gear2 : BevelGear) (p : ℝ × ℝ × ℝ) :
    bevel_mesh_transform gear1 p
        = ((rotY (Real.pi / 2) p).1 + gear1.apex_distance,
           (rotY (Real.pi / 2) p).2.1, (rotY (Real.pi / 2) p).2.2)
    ∧ gear1.apex_distance = gear1.pitch_radius / Real.sin (gear1.cone_angle * Real.pi / 180)
    ∧ rotY (Real.pi / 2) p = (p.2.2, p.2.1, -p.1)
    ∧ rotY (Real.pi / 2) (0, 0, 1) = (1, 0, 0)
    ∧ bevel_mesh_transform gear1 (apex_point gear2)
        = (gear2.apex_distance + gear1.apex_distance, 0, 0)
    ∧ apex_point gear1 = (0, 0, gear1.apex_distance) := by
  refine ⟨bevel_mesh_transform_eq gear1 p, rfl, rotY_pi_div_two p, ?_,
    bevel_mesh_apex_image gear1 gear2, rfl⟩
  rw [rotY_pi_div_two]
  norm_num

end GearGen
